import Mathlib

/-!
Shallow embedding of the nvdla loadable model from
`umd/core/include/nvdla/ILoadable.h`: the record table entry types and their
conversions to the external C wire shapes are translated directly from the
header; the accessor, resolver and submitter behaviour, which the header only
declares (pure virtual methods), is modelled from the specification, with each
such definition marked `Modelled from the spec:` in its doc comment.
-/

deriving instance DecidableEq for Except

namespace nvdla

/-- Unsigned machine integers of the source (NvU8/NvU16/NvU32/NvU64) are
modelled as `Nat`; none of the embedded operations perform arithmetic where
overflow could occur, so no explicit wrap-around is needed. -/
abbrev NvU8 := Nat

abbrev NvU16 := Nat

abbrev NvU32 := Nat

abbrev NvU64 := Nat

/-- Signed machine integers (NvS16/NvS32) are modelled as `Int`. -/
abbrev NvS16 := Int

abbrev NvS32 := Int

/-- Modelled from the spec: the target interface enumeration (`NONE`/`DLA1`);
the C header `nvdla/c/NvDlaLoadable.h` fixing the numeric values is not among
the sources. -/
inductive Interface where
  | NONE
  | DLA1
  deriving DecidableEq

/-- Modelled from the spec: the `ALLOC` bit of the combinable Memory flags
bitset; the C header `nvdla/c/NvDlaLoadable.h` fixing the numeric flag values
is not among the sources, so the four flags are modelled as distinct bits. -/
def MemoryFlags_ALLOC : NvU8 := 1

/-- Modelled from the spec: the `SET` bit of the Memory flags bitset. -/
def MemoryFlags_SET : NvU8 := 2

/-- Modelled from the spec: the `INPUT` bit of the Memory flags bitset. -/
def MemoryFlags_INPUT : NvU8 := 4

/-- Modelled from the spec: the `OUTPUT` bit of the Memory flags bitset. -/
def MemoryFlags_OUTPUT : NvU8 := 8

/-- Test whether a flags bitset has a given flag bit set. -/
def hasFlag (flags bit : NvU8) : Bool := flags &&& bit != 0

/-- `ILoadable::Version` (ILoadable.h lines 119-133). -/
structure Version where
  major : NvU8
  minor : NvU8
  sub_minor : NvU8
  deriving DecidableEq

/-- The wire shape `NvDlaLoadableVersion`, with the field names used by
`Version::toC` (`major`, `minor`, `subMinor`). -/
structure NvDlaLoadableVersion where
  major : NvU8
  minor : NvU8
  subMinor : NvU8
  deriving DecidableEq

/-- `Version::toC` (ILoadable.h lines 127-132): field-by-field copy into the
C wire shape. -/
def Version.toC (v : Version) : NvDlaLoadableVersion :=
  { major := v.major, minor := v.minor, subMinor := v.sub_minor }

/-- `ILoadable::MemoryListEntry` (ILoadable.h lines 135-159). -/
structure MemoryListEntry where
  id : NvU16
  size : NvU64
  alignment : NvU32
  domain : NvU8
  flags : NvU8
  bind_id : NvU16
  tensor_desc_id : NvU16
  contents : List String
  offsets : List NvU64
  deriving DecidableEq

/-- The default constructor `MemoryListEntry()` (ILoadable.h lines 152-153):
every scalar field is zero-initialised and the two vectors are empty. -/
def MemoryListEntry.default : MemoryListEntry :=
  { id := 0, size := 0, alignment := 0, domain := 0, flags := 0,
    bind_id := 0, tensor_desc_id := 0, contents := [], offsets := [] }

/-- The copy constructor `MemoryListEntry(const MemoryListEntry &)`
(ILoadable.h lines 154-158): field-by-field copy, including copies of the
`contents` and `offsets` vectors. -/
def MemoryListEntry.copy (o : MemoryListEntry) : MemoryListEntry :=
  { id := o.id, size := o.size, alignment := o.alignment, domain := o.domain,
    flags := o.flags, bind_id := o.bind_id, tensor_desc_id := o.tensor_desc_id,
    contents := o.contents, offsets := o.offsets }

/-- `ILoadable::EventListEntry` (ILoadable.h lines 161-176). -/
structure EventListEntry where
  id : NvU16
  target : NvU16
  op : NvU8
  val : NvU32
  deriving DecidableEq

/-- The wire shape `NvDlaLoadableEventListEntry`, with the field names used by
`EventListEntry::toC`. -/
structure NvDlaLoadableEventListEntry where
  id : NvU16
  target : NvU16
  op : NvU8
  val : NvU32
  deriving DecidableEq

/-- `EventListEntry::toC` (ILoadable.h lines 169-175): field-by-field copy. -/
def EventListEntry.toC (e : EventListEntry) : NvDlaLoadableEventListEntry :=
  { id := e.id, target := e.target, op := e.op, val := e.val }

/-- `ILoadable::TaskListEntry` (ILoadable.h lines 178-191). The source field
`instance` is a Lean keyword; it is escaped with guillemets here. -/
structure TaskListEntry where
  id : NvU16
  interface : NvU32
  «instance» : NvS16
  preactions : List NvU16
  postactions : List NvU16
  address_list : List NvU16
  deriving DecidableEq

/-- `ILoadable::SubmitListEntry` (ILoadable.h lines 193-197). -/
structure SubmitListEntry where
  id : NvU16
  tasks : List NvU16
  deriving DecidableEq

/-- `ILoadable::AddressListEntry` (ILoadable.h lines 199-212). -/
structure AddressListEntry where
  id : NvU16
  mem_id : NvU16
  size : NvU64
  offset : NvU64
  deriving DecidableEq

/-- The wire shape `NvDlaLoadableAddressListEntry`, with the field names used
by `AddressListEntry::toC` (`id`, `memId`, `size`, `offset`). -/
structure NvDlaLoadableAddressListEntry where
  id : NvU16
  memId : NvU16
  size : NvU64
  offset : NvU64
  deriving DecidableEq

/-- `AddressListEntry::toC` (ILoadable.h lines 206-211): field-by-field
copy. -/
def AddressListEntry.toC (a : AddressListEntry) : NvDlaLoadableAddressListEntry :=
  { id := a.id, memId := a.mem_id, size := a.size, offset := a.offset }

/-- The 4D shape `Dims4` from `nvdla/IType.h` (not among the sources); its
four components are copied field-by-field by the tensor-descriptor
conversions. -/
structure Dims4 where
  n : NvS32
  c : NvS32
  h : NvS32
  w : NvS32
  deriving DecidableEq

/-- `ILoadable::TensorDescListEntry` (ILoadable.h lines 215-272). The
`UnderlyingType` enumeration carriers of `IType.h` are modelled as `Nat`. -/
structure TensorDescListEntry where
  id : NvU16
  mem_id : NvU16
  size : NvU64
  offset : NvU64
  dims : Dims4
  data_format : Nat
  data_type : Nat
  data_category : Nat
  pixel_format : Nat
  pixel_mapping : Nat
  line_stride : NvU32
  surf_stride : NvU32
  plane_stride : NvU32
  deriving DecidableEq

/-- The wire shape `NvDlaLoadableTensorDescListEntry`, with the field names
used by `TensorDescListEntry::toC`/`fromC` (`id`, `mem_id`, `size`, `offset`,
`dims`, camel-cased format fields and strides). -/
structure NvDlaLoadableTensorDescListEntry where
  id : NvU16
  mem_id : NvU16
  size : NvU64
  offset : NvU64
  dims : Dims4
  dataFormat : Nat
  dataType : Nat
  dataCategory : Nat
  pixelFormat : Nat
  pixelMapping : Nat
  lineStride : NvU32
  surfStride : NvU32
  planeStride : NvU32
  deriving DecidableEq

/-- `TensorDescListEntry::fromC` (ILoadable.h lines 233-251): every field of
the entry is assigned from the wire value, so the member function is embedded
as a pure function of the wire value alone. -/
def TensorDescListEntry.fromC (c : NvDlaLoadableTensorDescListEntry) :
    TensorDescListEntry :=
  { id := c.id
    mem_id := c.mem_id
    size := c.size
    offset := c.offset
    dims := { n := c.dims.n, c := c.dims.c, h := c.dims.h, w := c.dims.w }
    data_format := c.dataFormat
    data_type := c.dataType
    data_category := c.dataCategory
    pixel_format := c.pixelFormat
    pixel_mapping := c.pixelMapping
    line_stride := c.lineStride
    surf_stride := c.surfStride
    plane_stride := c.planeStride }

/-- `TensorDescListEntry::toC` (ILoadable.h lines 253-271). Line 256 of the
source assigns `c.mem_id = id;` (the entry's `id`, not its `mem_id`), and the
embedding reproduces that assignment exactly. -/
def TensorDescListEntry.toC (t : TensorDescListEntry) :
    NvDlaLoadableTensorDescListEntry :=
  { id := t.id
    mem_id := t.id
    size := t.size
    offset := t.offset
    dims := { n := t.dims.n, c := t.dims.c, h := t.dims.h, w := t.dims.w }
    dataFormat := t.data_format
    dataType := t.data_type
    dataCategory := t.data_category
    pixelFormat := t.pixel_format
    pixelMapping := t.pixel_mapping
    lineStride := t.line_stride
    surfStride := t.surf_stride
    planeStride := t.plane_stride }

/-- `ILoadable::Blob` (ILoadable.h lines 274-280). -/
structure Blob where
  name : String
  size : NvU64
  interface : Interface
  version : Version

/-- Modelled from the spec: the error kinds of section 7; the C header
defining the `NvDlaError` codes is not among the sources. -/
inductive NvDlaError where
  | NotFound
  | VersionMismatch
  | UnsupportedInterface
  | InvalidRange
  | UnboundInput
  | UnboundOutput
  | UnresolvedMemory
  | UnresolvedEvent
  | AllocationFailure
  | Unspecified
  deriving DecidableEq

/-- Modelled from the spec: a loadable's parsed record tables (section 3);
each table is a list indexed by the table-local entry id. The accessor
methods of `ILoadable` are pure virtual in the sources, so the tables and
accessors are modelled from the specification. -/
structure Loadable where
  memory : List MemoryListEntry
  events : List EventListEntry
  tasks : List TaskListEntry
  addresses : List AddressListEntry
  tensors : List TensorDescListEntry
  submits : List SubmitListEntry

/-- Modelled from the spec: `getNumMemoryListEntries`, the declared count of
the Memory table. -/
def getNumMemoryListEntries (l : Loadable) : Nat := l.memory.length

/-- Modelled from the spec: `getMemoryListEntry`, failing with `NotFound`
when the id is outside the table's declared range (section 4.1). -/
def getMemoryListEntry (l : Loadable) (i : NvU16) :
    Except NvDlaError MemoryListEntry :=
  if h : i < l.memory.length then .ok (l.memory.get ⟨i, h⟩) else .error .NotFound

/-- Modelled from the spec: `getNumEventListEntries`. -/
def getNumEventListEntries (l : Loadable) : Nat := l.events.length

/-- Modelled from the spec: `getEventListEntry`, failing with `NotFound` on
an out-of-range id. -/
def getEventListEntry (l : Loadable) (i : NvU16) :
    Except NvDlaError EventListEntry :=
  if h : i < l.events.length then .ok (l.events.get ⟨i, h⟩) else .error .NotFound

/-- Modelled from the spec: `getNumTaskListEntries`. -/
def getNumTaskListEntries (l : Loadable) : Nat := l.tasks.length

/-- Modelled from the spec: `getTaskListEntry`, failing with `NotFound` on an
out-of-range id. -/
def getTaskListEntry (l : Loadable) (i : NvU16) :
    Except NvDlaError TaskListEntry :=
  if h : i < l.tasks.length then .ok (l.tasks.get ⟨i, h⟩) else .error .NotFound

/-- Modelled from the spec: `getNumAddressListEntries`. -/
def getNumAddressListEntries (l : Loadable) : Nat := l.addresses.length

/-- Modelled from the spec: `getAddressListEntry`, failing with `NotFound` on
an out-of-range id. -/
def getAddressListEntry (l : Loadable) (i : NvU16) :
    Except NvDlaError AddressListEntry :=
  if h : i < l.addresses.length then .ok (l.addresses.get ⟨i, h⟩)
  else .error .NotFound

/-- Modelled from the spec: `getNumTensorDescListEntries`. -/
def getNumTensorDescListEntries (l : Loadable) : Nat := l.tensors.length

/-- Modelled from the spec: `getTensorDescListEntry`, failing with `NotFound`
on an out-of-range id. -/
def getTensorDescListEntry (l : Loadable) (i : NvU16) :
    Except NvDlaError TensorDescListEntry :=
  if h : i < l.tensors.length then .ok (l.tensors.get ⟨i, h⟩)
  else .error .NotFound

/-- Modelled from the spec: a caller-supplied external buffer; only its byte
size is relevant to the resolution rules. -/
structure Buffer where
  size : NvU64
  deriving DecidableEq

/-- Modelled from the spec: global resolution of one Memory entry against the
caller-supplied external buffers (section 4.2, pass 1): an entry flagged
`INPUT`/`OUTPUT` binds to the buffer supplied for its `bind_id`, failing with
`UnboundInput`/`UnboundOutput` when none was supplied and with `InvalidRange`
when the supplied buffer's size does not match; other entries (`ALLOC`)
allocate a buffer of the entry's size. -/
def resolveMemory (buffers : NvU16 → Option Buffer) (m : MemoryListEntry) :
    Except NvDlaError Buffer :=
  if hasFlag m.flags MemoryFlags_INPUT then
    match buffers m.bind_id with
    | none => .error .UnboundInput
    | some b => if b.size = m.size then .ok b else .error .InvalidRange
  else if hasFlag m.flags MemoryFlags_OUTPUT then
    match buffers m.bind_id with
    | none => .error .UnboundOutput
    | some b => if b.size = m.size then .ok b else .error .InvalidRange
  else
    .ok { size := m.size }

/-- Modelled from the spec: per-task address resolution (section 4.2, pass 2,
and section 7): an Address entry must reference an existing Memory entry, and
`offset + size` must stay within that entry's size, failing with
`InvalidRange` otherwise — never truncating the range. -/
def resolveAddress (l : Loadable) (a : AddressListEntry) :
    Except NvDlaError Unit :=
  match getMemoryListEntry l a.mem_id with
  | .error e => .error e
  | .ok m => if a.offset + a.size ≤ m.size then .ok () else .error .InvalidRange

/-- Modelled from the spec: the per-cycle binding state (section 4.2 output):
per task id, the set of outstanding unsatisfied memory references, and per
event id, whether the event is satisfied. -/
structure BindingState where
  unsatisfied : NvU16 → List NvU16
  eventSatisfied : NvU16 → Bool

/-- Modelled from the spec: submit-time eligibility of one task (section 4.3
steps a and b): the task must exist, have an empty unsatisfied-reference set
(else `UnresolvedMemory`) and have all its pre-action events satisfied (else
`UnresolvedEvent`). -/
def taskEligible (l : Loadable) (st : BindingState) (tid : NvU16) :
    Except NvDlaError Unit :=
  if st.unsatisfied tid ≠ [] then .error .UnresolvedMemory
  else
    match getTaskListEntry l tid with
    | .error e => .error e
    | .ok t =>
      if t.preactions.all st.eventSatisfied then .ok ()
      else .error .UnresolvedEvent

/-- Checks every task of a submit list for eligibility, returning the first
failure. -/
def checkTasks (l : Loadable) (st : BindingState) :
    List NvU16 → Except NvDlaError Unit
  | [] => .ok ()
  | tid :: rest =>
    match taskEligible l st tid with
    | .error e => .error e
    | .ok _ => checkTasks l st rest

/-- Modelled from the spec: atomic submission of one SubmitListEntry (section
4.3): every named task is checked for eligibility first; only when all are
eligible is the whole list dispatched (the returned list is the dispatched
task ids), otherwise the submit fails and nothing is dispatched. -/
def submitEntry (l : Loadable) (st : BindingState) (s : SubmitListEntry) :
    Except NvDlaError (List NvU16) :=
  match checkTasks l st s.tasks with
  | .error e => .error e
  | .ok _ => .ok s.tasks

/-- Ordering of Memory entries by ascending `bind_id`. -/
abbrev memBindLe (a b : MemoryListEntry) : Prop := a.bind_id ≤ b.bind_id

instance : DecidableRel memBindLe := fun a b => Nat.decLe a.bind_id b.bind_id

instance : IsTotal MemoryListEntry memBindLe :=
  ⟨fun a b => Nat.le_total a.bind_id b.bind_id⟩

instance : IsTrans MemoryListEntry memBindLe :=
  ⟨fun _ _ _ h1 h2 => Nat.le_trans h1 h2⟩

/-- Modelled from the spec: the Memory entries flagged `INPUT`, ordered by
ascending `bind_id` (section 4.1). -/
def inputMemories (l : Loadable) : List MemoryListEntry :=
  List.insertionSort memBindLe
    (l.memory.filter (fun m => hasFlag m.flags MemoryFlags_INPUT))

/-- Modelled from the spec: the Memory entries flagged `OUTPUT`, ordered by
ascending `bind_id`. -/
def outputMemories (l : Loadable) : List MemoryListEntry :=
  List.insertionSort memBindLe
    (l.memory.filter (fun m => hasFlag m.flags MemoryFlags_OUTPUT))

/-- Modelled from the spec: `inputTensors()` returns the tensor descriptors
owned (via `tensor_desc_id`) by the `INPUT`-flagged Memory entries, in
ascending `bind_id` order of those entries. -/
def inputTensors (l : Loadable) : List TensorDescListEntry :=
  (inputMemories l).filterMap
    (fun m => (getTensorDescListEntry l m.tensor_desc_id).toOption)

/-- Modelled from the spec: `outputTensors()`, the `OUTPUT` analogue. -/
def outputTensors (l : Loadable) : List TensorDescListEntry :=
  (outputMemories l).filterMap
    (fun m => (getTensorDescListEntry l m.tensor_desc_id).toOption)

/-- State-passing form of `getMemoryListEntry`: the accessor is read-only, so
it returns the loadable unchanged alongside its result. -/
def getMemoryListEntryS (l : Loadable) (i : NvU16) :
    Except NvDlaError MemoryListEntry × Loadable :=
  (getMemoryListEntry l i, l)

/-- State-passing form of `getEventListEntry`. -/
def getEventListEntryS (l : Loadable) (i : NvU16) :
    Except NvDlaError EventListEntry × Loadable :=
  (getEventListEntry l i, l)

/-- State-passing form of `getTaskListEntry`. -/
def getTaskListEntryS (l : Loadable) (i : NvU16) :
    Except NvDlaError TaskListEntry × Loadable :=
  (getTaskListEntry l i, l)

/-- State-passing form of `getAddressListEntry`. -/
def getAddressListEntryS (l : Loadable) (i : NvU16) :
    Except NvDlaError AddressListEntry × Loadable :=
  (getAddressListEntry l i, l)

/-- State-passing form of `getTensorDescListEntry`. -/
def getTensorDescListEntryS (l : Loadable) (i : NvU16) :
    Except NvDlaError TensorDescListEntry × Loadable :=
  (getTensorDescListEntry l i, l)

/-- A Memory entry following the scenario of spec section 8: size 1024,
flags `ALLOC ||| INPUT`, bind_id 0. -/
def exMem : MemoryListEntry :=
  { id := 0, size := 1024, alignment := 0, domain := 0,
    flags := MemoryFlags_ALLOC ||| MemoryFlags_INPUT,
    bind_id := 0, tensor_desc_id := 0, contents := [], offsets := [] }

/-- An Address entry that fits within `exMem`. -/
def exAddr : AddressListEntry := { id := 0, mem_id := 0, size := 1024, offset := 0 }

/-- An Address entry exceeding `exMem` (spec section 8 scenario: size 2048
against a 1024-byte memory). -/
def exAddrBad : AddressListEntry := { id := 1, mem_id := 0, size := 2048, offset := 0 }

/-- A tensor descriptor over `exMem`. -/
def exTensor : TensorDescListEntry :=
  { id := 0, mem_id := 0, size := 1024, offset := 0,
    dims := { n := 1, c := 1, h := 1, w := 1 },
    data_format := 0, data_type := 0, data_category := 0,
    pixel_format := 0, pixel_mapping := 0,
    line_stride := 0, surf_stride := 0, plane_stride := 0 }

/-- A task with one address-list reference and no pre/post actions. -/
def exTask : TaskListEntry :=
  { id := 0, interface := 1, «instance» := -1,
    preactions := [], postactions := [], address_list := [0] }

/-- A submit entry naming task 0. -/
def exSubmit : SubmitListEntry := { id := 0, tasks := [0] }

/-- A submit entry with an empty task list. -/
def emptySubmit : SubmitListEntry := { id := 1, tasks := [] }

/-- A loadable assembled from the fixtures above. -/
def exLoadable : Loadable :=
  { memory := [exMem], events := [], tasks := [exTask],
    addresses := [exAddr], tensors := [exTensor], submits := [exSubmit] }

/-- A loadable with all tables empty. -/
def emptyLoadable : Loadable :=
  { memory := [], events := [], tasks := [], addresses := [], tensors := [],
    submits := [] }

/-- A binding state with nothing outstanding and every event satisfied. -/
def stAll : BindingState :=
  { unsatisfied := fun _ => [], eventSatisfied := fun _ => true }

/-- A binding state in which every task still has an unsatisfied memory
reference. -/
def stBlocked : BindingState :=
  { unsatisfied := fun _ => [3], eventSatisfied := fun _ => false }

/-- An external buffer map supplying a 1024-byte buffer for bind id 0. -/
def exBuffers : NvU16 → Option Buffer :=
  fun i => if i = 0 then some { size := 1024 } else none

/-- An external buffer map supplying nothing. -/
def noBuffers : NvU16 → Option Buffer := fun _ => none

/-- A tensor descriptor whose `mem_id` differs from its `id`. -/
def exTensorDesc : TensorDescListEntry :=
  { id := 0, mem_id := 1, size := 0, offset := 0,
    dims := { n := 0, c := 0, h := 0, w := 0 },
    data_format := 0, data_type := 0, data_category := 0,
    pixel_format := 0, pixel_mapping := 0,
    line_stride := 0, surf_stride := 0, plane_stride := 0 }

/-- A concrete version value. -/
def exVersion : Version := { major := 1, minor := 2, sub_minor := 3 }

/-- A concrete event entry. -/
def exEvent : EventListEntry := { id := 4, target := 5, op := 1, val := 6 }

/-- Claim C1: round-tripping a `TensorDescListEntry` through `toC` and
`fromC` is claimed to preserve every field, in particular `mem_id`. The
source's `toC` assigns the entry's `id` into the wire `mem_id` field
(ILoadable.h line 256: `c.mem_id = id;`), so the entry with `id = 0` and
`mem_id = 1` comes back with `mem_id = 0`: the round trip does not preserve
`mem_id`, contradicting the claim. -/
theorem C1_toC_fromC_drops_mem_id :
    exTensorDesc.mem_id = 1
    ∧ (TensorDescListEntry.fromC (TensorDescListEntry.toC exTensorDesc)).mem_id = 0
    ∧ TensorDescListEntry.fromC (TensorDescListEntry.toC exTensorDesc) ≠ exTensorDesc := by
  decide

/-- Claim C2: whenever resolution of an Address entry succeeds, its
`offset + size` is within the size of the Memory entry it references, and an
entry violating that bound resolves to `InvalidRange`, never to success with
a truncated range. -/
theorem C2_resolved_address_in_range (l : Loadable) (a : AddressListEntry) :
    (∀ m, getMemoryListEntry l a.mem_id = .ok m →
        (resolveAddress l a = .ok () → a.offset + a.size ≤ m.size)
        ∧ (m.size < a.offset + a.size →
            resolveAddress l a = .error .InvalidRange))
    ∧ (resolveAddress l a = .ok () →
        ∃ m, getMemoryListEntry l a.mem_id = .ok m) := by
  constructor
  · intro m hm
    constructor
    · intro hok
      by_contra hgt
      simp [resolveAddress, hm, hgt] at hok
    · intro hgt
      have hn : ¬ (a.offset + a.size ≤ m.size) := Nat.not_le.mpr hgt
      simp [resolveAddress, hm, hn]
  · intro hok
    cases hg : getMemoryListEntry l a.mem_id with
    | error e => simp [resolveAddress, hg] at hok
    | ok m => exact ⟨m, rfl⟩

/-- Witness for C2 at the concrete fixtures: the in-range entry satisfies the
bound, and the 2048-byte entry against the 1024-byte memory resolves to
`InvalidRange`. -/
theorem C2_resolved_address_in_range_witness :
    exAddr.offset + exAddr.size ≤ exMem.size
    ∧ resolveAddress exLoadable exAddrBad = .error .InvalidRange :=
  ⟨((C2_resolved_address_in_range exLoadable exAddr).1 exMem (by decide)).1
      (by decide),
   ((C2_resolved_address_in_range exLoadable exAddrBad).1 exMem (by decide)).2
      (by decide)⟩

/-- Claim C3: for a Memory entry flagged `INPUT` or `OUTPUT`, resolution
fails with `UnboundInput`/`UnboundOutput` exactly when no external buffer was
supplied for its `bind_id` (with the respective error determined by the
flag), and a supplied size-matching buffer makes resolution of the entry
succeed. -/
theorem C3_input_output_binding (buffers : NvU16 → Option Buffer)
    (m : MemoryListEntry)
    (hio : hasFlag m.flags MemoryFlags_INPUT = true
      ∨ hasFlag m.flags MemoryFlags_OUTPUT = true) :
    ((resolveMemory buffers m = .error .UnboundInput
        ∨ resolveMemory buffers m = .error .UnboundOutput)
      ↔ buffers m.bind_id = none)
    ∧ (hasFlag m.flags MemoryFlags_INPUT = true →
        buffers m.bind_id = none →
        resolveMemory buffers m = .error .UnboundInput)
    ∧ (hasFlag m.flags MemoryFlags_INPUT = false →
        hasFlag m.flags MemoryFlags_OUTPUT = true →
        buffers m.bind_id = none →
        resolveMemory buffers m = .error .UnboundOutput)
    ∧ (∀ b, buffers m.bind_id = some b → b.size = m.size →
        resolveMemory buffers m = .ok b) := by
  cases hin : hasFlag m.flags MemoryFlags_INPUT with
  | true =>
    cases hb : buffers m.bind_id with
    | none => simp [resolveMemory, hin, hb]
    | some b =>
      by_cases hsz : b.size = m.size
      · simp [resolveMemory, hin, hb, hsz]
      · simp [resolveMemory, hin, hb, hsz]
  | false =>
    cases hout : hasFlag m.flags MemoryFlags_OUTPUT with
    | false => simp [hin, hout] at hio
    | true =>
      cases hb : buffers m.bind_id with
      | none => simp [resolveMemory, hin, hout, hb]
      | some b =>
        by_cases hsz : b.size = m.size
        · simp [resolveMemory, hin, hout, hb, hsz]
        · simp [resolveMemory, hin, hout, hb, hsz]

/-- Witness for C3 at the concrete fixtures: the `INPUT`-flagged memory
resolves to the supplied size-matching buffer, and with no buffer supplied it
fails with `UnboundInput`. -/
theorem C3_input_output_binding_witness :
    resolveMemory exBuffers exMem = .ok { size := 1024 }
    ∧ resolveMemory noBuffers exMem = .error .UnboundInput :=
  ⟨(C3_input_output_binding exBuffers exMem (Or.inl (by decide))).2.2.2
      { size := 1024 } (by decide) (by decide),
   (C3_input_output_binding noBuffers exMem (Or.inl (by decide))).2.1
      (by decide) (by decide)⟩

/-- Claim C4: each of the five table accessors, given an id at or beyond the
table's declared count, fails with `NotFound` rather than returning an
entry. -/
theorem C4_get_out_of_range_notFound (l : Loadable) (i : NvU16) :
    (getNumMemoryListEntries l ≤ i →
        getMemoryListEntry l i = .error .NotFound)
    ∧ (getNumEventListEntries l ≤ i →
        getEventListEntry l i = .error .NotFound)
    ∧ (getNumTaskListEntries l ≤ i →
        getTaskListEntry l i = .error .NotFound)
    ∧ (getNumAddressListEntries l ≤ i →
        getAddressListEntry l i = .error .NotFound)
    ∧ (getNumTensorDescListEntries l ≤ i →
        getTensorDescListEntry l i = .error .NotFound) := by
  refine ⟨fun h => ?_, fun h => ?_, fun h => ?_, fun h => ?_, fun h => ?_⟩
  · simp only [getNumMemoryListEntries] at h
    unfold getMemoryListEntry
    rw [dif_neg (Nat.not_lt.mpr h)]
  · simp only [getNumEventListEntries] at h
    unfold getEventListEntry
    rw [dif_neg (Nat.not_lt.mpr h)]
  · simp only [getNumTaskListEntries] at h
    unfold getTaskListEntry
    rw [dif_neg (Nat.not_lt.mpr h)]
  · simp only [getNumAddressListEntries] at h
    unfold getAddressListEntry
    rw [dif_neg (Nat.not_lt.mpr h)]
  · simp only [getNumTensorDescListEntries] at h
    unfold getTensorDescListEntry
    rw [dif_neg (Nat.not_lt.mpr h)]

/-- Witness for C4: on the empty loadable every accessor at id 0 is out of
range and returns `NotFound`. -/
theorem C4_get_out_of_range_notFound_witness :
    getMemoryListEntry emptyLoadable 0 = .error .NotFound
    ∧ getEventListEntry emptyLoadable 0 = .error .NotFound
    ∧ getTaskListEntry emptyLoadable 0 = .error .NotFound
    ∧ getAddressListEntry emptyLoadable 0 = .error .NotFound
    ∧ getTensorDescListEntry emptyLoadable 0 = .error .NotFound :=
  ⟨(C4_get_out_of_range_notFound emptyLoadable 0).1 (by decide),
   (C4_get_out_of_range_notFound emptyLoadable 0).2.1 (by decide),
   (C4_get_out_of_range_notFound emptyLoadable 0).2.2.1 (by decide),
   (C4_get_out_of_range_notFound emptyLoadable 0).2.2.2.1 (by decide),
   (C4_get_out_of_range_notFound emptyLoadable 0).2.2.2.2 (by decide)⟩

/-- Claim C5: `inputTensors`/`outputTensors` are the tensor descriptors of
exactly the Memory entries carrying the `INPUT`/`OUTPUT` flag, taken in
ascending `bind_id` order of those entries. -/
theorem C5_tensor_queries (l : Loadable) :
    ((inputMemories l).Sorted memBindLe
      ∧ (∀ m : MemoryListEntry,
          m ∈ inputMemories l ↔
            m ∈ l.memory ∧ hasFlag m.flags MemoryFlags_INPUT = true)
      ∧ inputTensors l = (inputMemories l).filterMap
          (fun m => (getTensorDescListEntry l m.tensor_desc_id).toOption))
    ∧ ((outputMemories l).Sorted memBindLe
      ∧ (∀ m : MemoryListEntry,
          m ∈ outputMemories l ↔
            m ∈ l.memory ∧ hasFlag m.flags MemoryFlags_OUTPUT = true)
      ∧ outputTensors l = (outputMemories l).filterMap
          (fun m => (getTensorDescListEntry l m.tensor_desc_id).toOption)) := by
  refine ⟨⟨List.sorted_insertionSort memBindLe _, fun m => ?_, rfl⟩,
    ⟨List.sorted_insertionSort memBindLe _, fun m => ?_, rfl⟩⟩
  · simp [inputMemories, List.mem_insertionSort, List.mem_filter]
  · simp [outputMemories, List.mem_insertionSort, List.mem_filter]

/-- Checking a task list succeeds exactly when every task in it is
eligible. -/
theorem checkTasks_ok_iff (l : Loadable) (st : BindingState) (ts : List NvU16) :
    checkTasks l st ts = .ok () ↔ ∀ tid ∈ ts, taskEligible l st tid = .ok () := by
  induction ts with
  | nil => simp [checkTasks]
  | cons tid rest ih =>
    cases h : taskEligible l st tid with
    | error e => simp [checkTasks, h]
    | ok u => cases u; simp [checkTasks, h, ih]

/-- Claim C6: submission of a SubmitListEntry is atomic over its task list —
success dispatches exactly the named tasks and implies every one of them was
eligible; any ineligible task makes the whole submit fail (dispatching
nothing); and an empty task list succeeds dispatching nothing. -/
theorem C6_submit_atomic (l : Loadable) (st : BindingState)
    (s : SubmitListEntry) :
    (∀ d, submitEntry l st s = .ok d →
        d = s.tasks ∧ ∀ tid ∈ s.tasks, taskEligible l st tid = .ok ())
    ∧ ((∃ tid ∈ s.tasks, taskEligible l st tid ≠ .ok ()) →
        ∃ e, submitEntry l st s = .error e)
    ∧ (s.tasks = [] → submitEntry l st s = .ok []) := by
  refine ⟨?_, ?_, ?_⟩
  · intro d hd
    cases hc : checkTasks l st s.tasks with
    | error e => simp [submitEntry, hc] at hd
    | ok u =>
      cases u
      have hall := (checkTasks_ok_iff l st s.tasks).mp hc
      simp [submitEntry, hc] at hd
      exact ⟨hd.symm, hall⟩
  · rintro ⟨tid, htid, hne⟩
    cases hc : checkTasks l st s.tasks with
    | error e => exact ⟨e, by simp [submitEntry, hc]⟩
    | ok u =>
      cases u
      exact absurd ((checkTasks_ok_iff l st s.tasks).mp hc tid htid) hne
  · intro h
    simp [submitEntry, checkTasks, h]

/-- Witness for C6 at the concrete fixtures: the single-task submit succeeds
with every task eligible, the blocked state makes the same submit fail, and
the empty submit succeeds dispatching nothing. -/
theorem C6_submit_atomic_witness :
    ([0] = exSubmit.tasks
      ∧ ∀ tid ∈ exSubmit.tasks, taskEligible exLoadable stAll tid = .ok ())
    ∧ (∃ e, submitEntry exLoadable stBlocked exSubmit = .error e)
    ∧ submitEntry exLoadable stAll emptySubmit = .ok [] :=
  ⟨(C6_submit_atomic exLoadable stAll exSubmit).1 [0] (by decide),
   (C6_submit_atomic exLoadable stBlocked exSubmit).2.1
      ⟨0, by decide, by decide⟩,
   (C6_submit_atomic exLoadable stAll emptySubmit).2.2 rfl⟩

/-- Claim C7: the Capability Query Layer accessors are read-only over the
immutable tables, so calling any of them twice with the same id leaves the
loadable unchanged and returns identical entries both times. -/
theorem C7_query_idempotent (l : Loadable) (i : NvU16) :
    ((getMemoryListEntryS l i).2 = l
      ∧ (getMemoryListEntryS (getMemoryListEntryS l i).2 i).1
          = (getMemoryListEntryS l i).1)
    ∧ ((getEventListEntryS l i).2 = l
      ∧ (getEventListEntryS (getEventListEntryS l i).2 i).1
          = (getEventListEntryS l i).1)
    ∧ ((getTaskListEntryS l i).2 = l
      ∧ (getTaskListEntryS (getTaskListEntryS l i).2 i).1
          = (getTaskListEntryS l i).1)
    ∧ ((getAddressListEntryS l i).2 = l
      ∧ (getAddressListEntryS (getAddressListEntryS l i).2 i).1
          = (getAddressListEntryS l i).1)
    ∧ ((getTensorDescListEntryS l i).2 = l
      ∧ (getTensorDescListEntryS (getTensorDescListEntryS l i).2 i).1
          = (getTensorDescListEntryS l i).1) :=
  ⟨⟨rfl, rfl⟩, ⟨rfl, rfl⟩, ⟨rfl, rfl⟩, ⟨rfl, rfl⟩, ⟨rfl, rfl⟩⟩

/-- Claim C8: a default-constructed `MemoryListEntry` has `bind_id = 0`,
`tensor_desc_id = 0` and `flags = 0` — the zero values, not an out-of-range
sentinel such as 0xFFFF. -/
theorem C8_default_entry_zero_fields :
    MemoryListEntry.default.bind_id = 0
    ∧ MemoryListEntry.default.tensor_desc_id = 0
    ∧ MemoryListEntry.default.flags = 0
    ∧ MemoryListEntry.default.bind_id ≠ 0xFFFF
    ∧ MemoryListEntry.default.tensor_desc_id ≠ 0xFFFF := by
  decide

/-- Claim C9: `Version::toC`, `EventListEntry::toC` and
`AddressListEntry::toC` copy every field unchanged into the wire shape, and
each conversion is injective. -/
theorem C9_toC_field_faithful (v : Version) (e : EventListEntry)
    (a : AddressListEntry) :
    (v.toC.major = v.major ∧ v.toC.minor = v.minor
      ∧ v.toC.subMinor = v.sub_minor
      ∧ ∀ w : Version, v.toC = w.toC → v = w)
    ∧ (e.toC.id = e.id ∧ e.toC.target = e.target ∧ e.toC.op = e.op
      ∧ e.toC.val = e.val
      ∧ ∀ f : EventListEntry, e.toC = f.toC → e = f)
    ∧ (a.toC.id = a.id ∧ a.toC.memId = a.mem_id ∧ a.toC.size = a.size
      ∧ a.toC.offset = a.offset
      ∧ ∀ b : AddressListEntry, a.toC = b.toC → a = b) := by
  refine ⟨⟨rfl, rfl, rfl, fun w h => ?_⟩,
    ⟨rfl, rfl, rfl, rfl, fun f h => ?_⟩,
    ⟨rfl, rfl, rfl, rfl, fun b h => ?_⟩⟩
  · cases v; cases w; simpa [Version.toC] using h
  · cases e; cases f; simpa [EventListEntry.toC] using h
  · cases a; cases b; simpa [AddressListEntry.toC] using h

/-- Witness for C9 at concrete values, including a use of each injectivity
half. -/
theorem C9_toC_field_faithful_witness :
    exVersion.toC.subMinor = exVersion.sub_minor
    ∧ exVersion = exVersion ∧ exEvent = exEvent ∧ exAddr = exAddr :=
  ⟨(C9_toC_field_faithful exVersion exEvent exAddr).1.2.2.1,
   (C9_toC_field_faithful exVersion exEvent exAddr).1.2.2.2 exVersion rfl,
   ((C9_toC_field_faithful exVersion exEvent exAddr).2.1).2.2.2.2 exEvent rfl,
   ((C9_toC_field_faithful exVersion exEvent exAddr).2.2).2.2.2.2 exAddr rfl⟩

/-- Claim C10: the `MemoryListEntry` copy constructor produces an entry equal
field-for-field to its source, including the `contents` and `offsets`
vectors. -/
theorem C10_copy_field_for_field (o : MemoryListEntry) :
    MemoryListEntry.copy o = o
    ∧ (MemoryListEntry.copy o).id = o.id
    ∧ (MemoryListEntry.copy o).size = o.size
    ∧ (MemoryListEntry.copy o).alignment = o.alignment
    ∧ (MemoryListEntry.copy o).domain = o.domain
    ∧ (MemoryListEntry.copy o).flags = o.flags
    ∧ (MemoryListEntry.copy o).bind_id = o.bind_id
    ∧ (MemoryListEntry.copy o).tensor_desc_id = o.tensor_desc_id
    ∧ (MemoryListEntry.copy o).contents = o.contents
    ∧ (MemoryListEntry.copy o).offsets = o.offsets :=
  ⟨rfl, rfl, rfl, rfl, rfl, rfl, rfl, rfl, rfl, rfl⟩

end nvdla
